import Mathlib

/-!
Shallow embedding of the merchant-registration form controller of this
repository (src/src/app/page.tsx, `MerchantFormContent`).

The component's React state is modelled as an explicit `UIState` record.
Each handler of the source becomes a pure function from state (plus an
environment describing the outcomes of the browser / network effects it
awaits) to a new state together with the list of outbound effects it
issued (POST requests, QR-render invocations).  JS string truthiness is
`≠ ""`, nullable-number truthiness is `numTruthy`.  The two regexes of
the source are implemented directly as decidable Boolean tests.
-/

namespace BountyForm

/-- JS `String.prototype.trim`: strip leading and trailing whitespace. -/
def jsTrim (s : String) : String :=
  ⟨((s.data.dropWhile Char.isWhitespace).reverse.dropWhile Char.isWhitespace).reverse⟩

/-- JS `String.prototype.includes` with a single-character needle. -/
def containsChar (s : String) (c : Char) : Bool :=
  s.data.contains c

/-- Truthiness of a JS `number | null` value: `null`, `0` are falsy.
Models the `!formData.latitude` / `!formData.longitude` tests. -/
def numTruthy : Option Int → Bool
  | none => false
  | some v => v != 0

/-- The mutable form record of the component (interface `FormData`).
`latitude`/`longitude` are `number | null` in the source. -/
structure FormData where
  merchantName : String
  upiId : String
  merchantMobile : String
  merchantEmail : String
  company : String
  address : String
  campaignId : String
  latitude : Option Int
  longitude : Option Int
  deriving DecidableEq

/-- The merchant record of a creation response (`ApiResponse["merchant"]`). -/
structure Merchant where
  id : String
  merchantName : String
  merchantCode : String
  qrLink : String
  deriving DecidableEq

/-- The query parameters read at mount: `campaign` and `company`. -/
structure QueryParams where
  campaign : Option String
  company : Option String
  deriving DecidableEq

/-- `initialFormState` of the source: defaults, with `company` and
`campaignId` seeded from the query parameters (`x || ""`). -/
def initialFormState (q : QueryParams) : FormData :=
  { merchantName := ""
    upiId := ""
    merchantMobile := ""
    merchantEmail := ""
    company := q.company.getD ""
    address := ""
    campaignId := q.campaign.getD ""
    latitude := none
    longitude := none }

/-- The React state of `MerchantFormContent`, one field per `useState`. -/
structure UIState where
  formData : FormData
  error : String
  success : String
  loading : Bool
  locationLoading : Bool
  merchantData : Option Merchant
  step : Nat
  locationError : String
  isDialogOpen : Bool
  qrDataUrl : String
  qrLoading : Bool
  deriving DecidableEq

/-- Test of the source regex for mobiles (ten digits, anchored both ends):
the string is exactly 10 characters, all decimal digits. -/
def validateMobile (mobile : String) : Bool :=
  mobile.data.length == 10 && mobile.data.all Char.isDigit

/-- Character class of the UPI regex: word characters, dot, hyphen. -/
def isUpiChar (c : Char) : Bool :=
  c.isAlphanum || c == '_' || c == '.' || c == '-'

/-- Test of the source regex for UPI ids (anchored, one at-sign between a
nonempty run of `isUpiChar` characters on each side; the class excludes
the at-sign, so a match has exactly one at-sign). -/
def validateUPI (upi : String) : Bool :=
  match upi.data.splitOn '@' with
  | [a, b] => !a.isEmpty && !b.isEmpty && a.all isUpiChar && b.all isUpiChar
  | _ => false

/-- `validateStep1` of the source.  The source returns `false` after one
`setError msg` call, or `true` with no call; that pair is encoded as
`some msg` (failed, message set) versus `none` (passed). -/
def validateStep1 (fd : FormData) : Option String :=
  if jsTrim fd.merchantName = "" then
    some "Merchant name is required"
  else if jsTrim fd.merchantMobile = "" then
    some "Mobile number is required"
  else if !validateMobile fd.merchantMobile then
    some "Please enter a valid 10-digit mobile number"
  else if fd.merchantEmail != "" && !(containsChar fd.merchantEmail '@') then
    some "Please enter a valid email address"
  else if !(numTruthy fd.latitude) || !(numTruthy fd.longitude) then
    some "Location access is required to proceed. Please enable location sharing and refresh the page"
  else
    none

/-- `validateStep2` of the source, encoded like `validateStep1`. -/
def validateStep2 (fd : FormData) : Option String :=
  if jsTrim fd.upiId = "" then
    some "UPI ID is required"
  else if !validateUPI fd.upiId then
    some "Please enter a valid UPI ID"
  else if jsTrim fd.company = "" then
    some "Company name is required"
  else if fd.campaignId = "" then
    some "Campaign ID is missing"
  else
    none

/-- The `name` attribute of a changed input, ranging over the `FormData`
fields the form binds. -/
inductive Field
  | merchantName
  | upiId
  | merchantMobile
  | merchantEmail
  | company
  | address
  | campaignId
  deriving DecidableEq

/-- Write a value into the `FormData` field matching a name
(the computed key `[name]: value.trim()` of the source spread). -/
def setField (fd : FormData) : Field → String → FormData
  | .merchantName, v => { fd with merchantName := v }
  | .upiId, v => { fd with upiId := v }
  | .merchantMobile, v => { fd with merchantMobile := v }
  | .merchantEmail, v => { fd with merchantEmail := v }
  | .company, v => { fd with company := v }
  | .address, v => { fd with address := v }
  | .campaignId, v => { fd with campaignId := v }

/-- Read the `FormData` field matching a name. -/
def getField (fd : FormData) : Field → String
  | .merchantName => fd.merchantName
  | .upiId => fd.upiId
  | .merchantMobile => fd.merchantMobile
  | .merchantEmail => fd.merchantEmail
  | .company => fd.company
  | .address => fd.address
  | .campaignId => fd.campaignId

/-- `handleChange` of the source: trim the new value, write it into the
field named by the event target, clear the error message. -/
def handleChange (s : UIState) (f : Field) (v : String) : UIState :=
  { s with formData := setField s.formData f (jsTrim v), error := "" }

/-- Outcome of the browser effects awaited by `detectLocation`:
geolocation unsupported, a `GeolocationPositionError` with its code, a
position whose reverse-geocode fetch throws, or a position with the
parsed `display_name` of the reverse-geocode response (`none` when the
JSON has no such key). -/
inductive GeoOutcome
  | unsupported
  | geoFailure (code : Nat)
  | fetchFailure (lat lng : Int)
  | success (lat lng : Int) (displayName : Option String)
  deriving DecidableEq

/-- `detectLocation` of the source: clears the location error, then per
outcome either records a location error or stores the coordinates and
the address (`display_name || "Address not found"`); the loading flag is
cleared on every path (early return or `finally`). -/
def detectLocation (g : GeoOutcome) (s : UIState) : UIState :=
  let s0 := { s with locationError := "" }
  match g with
  | .unsupported =>
      { s0 with
        locationError := "Geolocation is not supported by your browser"
        locationLoading := false }
  | .geoFailure code =>
      { s0 with
        locationError :=
          if code = 1 then "Please enable location access to proceed"
          else "Error getting location. Please allow location access and refresh the page"
        locationLoading := false }
  | .fetchFailure _ _ =>
      { s0 with
        locationError := "Failed to get address from coordinates"
        locationLoading := false }
  | .success lat lng displayName =>
      let addr := displayName.getD ""
      { s0 with
        formData :=
          { s0.formData with
            latitude := some lat
            longitude := some lng
            address := if addr = "" then "Address not found" else addr }
        locationLoading := false }

/-- One invocation of `qrcode.toDataURL` with the options the source
passes alongside the encoded link. -/
structure QRCall where
  link : String
  errorCorrectionLevel : String
  margin : Nat
  width : Nat
  deriving DecidableEq

/-- The options `generateQRForDisplay` passes to `qrcode.toDataURL`. -/
def qrDisplayCall (link : String) : QRCall :=
  { link := link, errorCorrectionLevel := "H", margin := 1, width := 400 }

/-- One POST issued by `handleSubmit` to the creation endpoint. -/
structure PostRequest where
  url : String
  body : FormData
  deriving DecidableEq

/-- The outbound effects of one handler run. -/
structure Effects where
  posts : List PostRequest
  qrCalls : List QRCall
  deriving DecidableEq

/-- Environment of one `handleSubmit` run: the configured API base URL
(`process.env.NEXT_PUBLIC_BOUNTY_URL`, `none` when unset), the parsed
creation response (`ok` flag, `message`, optional `merchant`), and the
outcome `qrcode.toDataURL` would produce (`Except.ok` data-URL or a
thrown error). -/
structure SubmitEnv where
  apiUrl : Option String
  responseOk : Bool
  responseMessage : String
  responseMerchant : Option Merchant
  qrResult : Except String String

/-- `generateQRForDisplay` of the source: set the QR loading flag, call
`qrcode.toDataURL` with error-correction H, margin 1, width 400; on
success store the data URL, on a thrown error set the error message; the
loading flag is cleared in `finally` either way. -/
def generateQRForDisplay (qrResult : Except String String) (s : UIState) (link : String) :
    UIState × List QRCall :=
  let s1 := { s with qrLoading := true }
  match qrResult with
  | .ok url => ({ s1 with qrDataUrl := url, qrLoading := false }, [qrDisplayCall link])
  | .error _ =>
      ({ s1 with error := "Failed to generate QR code display", qrLoading := false },
        [qrDisplayCall link])

/-- `handleSubmit` of the source: clear error/success/merchant/QR state;
at step 1 run Step-1 validation and either advance to step 2 or record
the error, with no network call; otherwise run Step-2 validation, and on
success set the loading flag, require the API URL, POST the form data to
the creation endpoint, and branch on the response: non-OK throws the
server message (or the fallback) into the catch, OK sets the success
message, stores `data.merchant || null`, renders the QR when a `qrLink`
is present, resets the form and step, and opens the dialog; the loading
flag is cleared in `finally` on every path that set it. -/
def handleSubmit (q : QueryParams) (env : SubmitEnv) (s : UIState) : UIState × Effects :=
  let s0 := { s with error := "", success := "", merchantData := none, qrDataUrl := "" }
  if s0.step = 1 then
    match validateStep1 s0.formData with
    | none => ({ s0 with step := 2 }, ⟨[], []⟩)
    | some msg => ({ s0 with error := msg }, ⟨[], []⟩)
  else
    match validateStep2 s0.formData with
    | some msg => ({ s0 with error := msg }, ⟨[], []⟩)
    | none =>
      let s1 := { s0 with loading := true }
      match env.apiUrl with
      | none => ({ s1 with error := "API URL is not configured", loading := false }, ⟨[], []⟩)
      | some base =>
        let req : PostRequest := ⟨base ++ "/api/merchant/create", s1.formData⟩
        if env.responseOk then
          let s2 :=
            { s1 with
              success := "Merchant created successfully!"
              merchantData := env.responseMerchant }
          let p :=
            match env.responseMerchant with
            | some m =>
                if m.qrLink = "" then (s2, ([] : List QRCall))
                else generateQRForDisplay env.qrResult s2 m.qrLink
            | none => (s2, ([] : List QRCall))
          ({ p.1 with
             formData := initialFormState q
             step := 1
             isDialogOpen := true
             loading := false }, ⟨[req], p.2⟩)
        else
          ({ s1 with
             error :=
               if env.responseMessage = "" then "Failed to create merchant"
               else env.responseMessage
             loading := false }, ⟨[req], []⟩)

/-! Concrete fixtures used by counterexamples and witnesses. -/

/-- A form record every validation check accepts. -/
def goodForm : FormData :=
  { merchantName := "Cafe X"
    upiId := "cafe@upi"
    merchantMobile := "9876543210"
    merchantEmail := ""
    company := "Acme"
    address := "12 High St"
    campaignId := "abc123"
    latitude := some 12
    longitude := some 77 }

/-- Query parameters carrying a campaign and a company id. -/
def exQuery : QueryParams := ⟨some "abc123", some "Acme"⟩

/-- A merchant record with a nonempty QR link. -/
def exMerchant : Merchant := ⟨"m1", "Cafe X", "MC1", "https://pay.example/m1"⟩

/-- A quiescent step-2 state holding `goodForm`. -/
def exState2 : UIState :=
  { formData := goodForm
    error := ""
    success := ""
    loading := false
    locationLoading := false
    merchantData := none
    step := 2
    locationError := ""
    isDialogOpen := false
    qrDataUrl := ""
    qrLoading := false }

/-- The same state at step 1. -/
def exState1 : UIState := { exState2 with step := 1 }

/-- Environment: OK creation response without a merchant record. -/
def envOkNoMerchant : SubmitEnv :=
  { apiUrl := some "https://api.example"
    responseOk := true
    responseMessage := "created"
    responseMerchant := none
    qrResult := .ok "data:image/png;base64,QQ" }

/-- Environment: OK creation response with a merchant record. -/
def envOkMerchant : SubmitEnv := { envOkNoMerchant with responseMerchant := some exMerchant }

/-- Environment: non-OK creation response with a server message. -/
def envNotOk : SubmitEnv :=
  { envOkNoMerchant with responseOk := false, responseMessage := "duplicate mobile" }

/-- Environment: OK response with a merchant, but the QR render throws. -/
def envQRFail : SubmitEnv := { envOkMerchant with qrResult := .error "render failed" }

/-- Form with an empty mobile (fails the ten-digit regex). -/
def c2Form : FormData := { goodForm with merchantMobile := "" }

/-- Form with an empty UPI id (fails the UPI regex). -/
def c3Form : FormData := { goodForm with upiId := "" }

/-- Form whose mobile is a single space: non-empty, blank after trim. -/
def c7Form : FormData := { goodForm with merchantMobile := " " }

/-- State carrying stale error and success messages. -/
def c4State : UIState := { exState2 with error := "old error", success := "old success" }

/-! Claim theorems. -/

/-- C2 counterexample: the empty mobile does not match the ten-digit
regex, yet Step-1 validation reports the empty-mobile message, not the
mobile-format message, even though every other field is valid. -/
theorem c2_empty_mobile_wrong_message :
    validateMobile c2Form.merchantMobile = false ∧
    validateStep1 c2Form = some "Mobile number is required" ∧
    validateStep1 c2Form ≠ some "Please enter a valid 10-digit mobile number" := by
  decide

/-- C2 (amended): for every form whose merchant name and mobile are
non-blank after trimming and whose mobile fails the ten-digit regex,
Step-1 validation fails with the mobile-format message, regardless of
the validity of the later-checked email and location fields. -/
theorem c2_mobile_format_error (fd : FormData)
    (hname : jsTrim fd.merchantName ≠ "")
    (hmob : jsTrim fd.merchantMobile ≠ "")
    (hregex : validateMobile fd.merchantMobile = false) :
    validateStep1 fd = some "Please enter a valid 10-digit mobile number" := by
  simp [validateStep1, hname, hmob, hregex]

/-- C2 witness: a five-digit mobile on an otherwise valid form. -/
theorem c2_mobile_format_error_witness :
    validateStep1 { goodForm with merchantMobile := "12345" } =
      some "Please enter a valid 10-digit mobile number" :=
  c2_mobile_format_error _ (by decide) (by decide) (by decide)

/-- C3 counterexample: the empty UPI id does not match the UPI regex,
yet Step-2 validation reports the empty-UPI message, not the UPI-format
message. -/
theorem c3_empty_upi_wrong_message :
    validateUPI c3Form.upiId = false ∧
    validateStep2 c3Form = some "UPI ID is required" ∧
    validateStep2 c3Form ≠ some "Please enter a valid UPI ID" := by
  decide

/-- C3 (amended): for every form whose UPI id is non-blank after
trimming but fails the UPI regex, Step-2 validation fails with the
UPI-format message. -/
theorem c3_upi_format_error (fd : FormData)
    (hupi : jsTrim fd.upiId ≠ "")
    (hregex : validateUPI fd.upiId = false) :
    validateStep2 fd = some "Please enter a valid UPI ID" := by
  simp [validateStep2, hupi, hregex]

/-- C3 witness: a UPI id without an at-sign on an otherwise valid form. -/
theorem c3_upi_format_error_witness :
    validateStep2 { goodForm with upiId := "cafe-at-upi" } =
      some "Please enter a valid UPI ID" :=
  c3_upi_format_error _ (by decide) (by decide)

/-- C7 counterexample: a mobile consisting of one space is non-empty, so
under the claim's ordering the first failing check would be the
ten-digit regex with the mobile-format message; the code's second check
tests emptiness after trimming and fires first with the required-mobile
message. -/
theorem c7_blank_mobile_order :
    c7Form.merchantMobile ≠ "" ∧
    validateMobile c7Form.merchantMobile = false ∧
    validateStep1 c7Form = some "Mobile number is required" ∧
    validateStep1 c7Form ≠ some "Please enter a valid 10-digit mobile number" := by
  decide

/-- C7 (amended): Step-1 validation runs its checks in the fixed order
(merchant name non-blank after trim; mobile non-blank after trim; mobile
matches the ten-digit regex; if the email is present it contains an
at-sign; latitude and longitude both truthy), stops at the first failing
check with exactly that check's message, and passes only when every
check holds. -/
theorem c7_step1_first_failure_order (fd : FormData) :
    (validateStep1 fd = none ↔
      (jsTrim fd.merchantName ≠ "" ∧ jsTrim fd.merchantMobile ≠ "" ∧
        validateMobile fd.merchantMobile = true ∧
        (fd.merchantEmail ≠ "" → containsChar fd.merchantEmail '@' = true) ∧
        numTruthy fd.latitude = true ∧ numTruthy fd.longitude = true)) ∧
    (jsTrim fd.merchantName = "" →
      validateStep1 fd = some "Merchant name is required") ∧
    (jsTrim fd.merchantName ≠ "" → jsTrim fd.merchantMobile = "" →
      validateStep1 fd = some "Mobile number is required") ∧
    (jsTrim fd.merchantName ≠ "" → jsTrim fd.merchantMobile ≠ "" →
      validateMobile fd.merchantMobile = false →
      validateStep1 fd = some "Please enter a valid 10-digit mobile number") ∧
    (jsTrim fd.merchantName ≠ "" → jsTrim fd.merchantMobile ≠ "" →
      validateMobile fd.merchantMobile = true →
      fd.merchantEmail ≠ "" → containsChar fd.merchantEmail '@' = false →
      validateStep1 fd = some "Please enter a valid email address") ∧
    (jsTrim fd.merchantName ≠ "" → jsTrim fd.merchantMobile ≠ "" →
      validateMobile fd.merchantMobile = true →
      (fd.merchantEmail ≠ "" → containsChar fd.merchantEmail '@' = true) →
      (numTruthy fd.latitude = false ∨ numTruthy fd.longitude = false) →
      validateStep1 fd =
        some "Location access is required to proceed. Please enable location sharing and refresh the page") := by
  by_cases h1 : jsTrim fd.merchantName = "" <;>
  by_cases h2 : jsTrim fd.merchantMobile = "" <;>
  by_cases h3 : validateMobile fd.merchantMobile = true <;>
  by_cases h4e : fd.merchantEmail = "" <;>
  by_cases h4 : containsChar fd.merchantEmail '@' = true <;>
  by_cases h5a : numTruthy fd.latitude = true <;>
  by_cases h5b : numTruthy fd.longitude = true <;>
  simp_all [validateStep1]

/-- C7 witness: a form with no detected coordinates fails with the
location message once all earlier checks pass. -/
theorem c7_step1_first_failure_order_witness :
    validateStep1 { goodForm with latitude := none } =
      some "Location access is required to proceed. Please enable location sharing and refresh the page" :=
  (c7_step1_first_failure_order { goodForm with latitude := none }).2.2.2.2.2
    (by decide) (by decide) (by decide) (by decide) (Or.inl (by decide))

/-- C8: a submit received at step 1 issues no effects at all — in
particular no POST to the creation endpoint — and either advances to
step 2 with no error (validation passed) or stays at step 1 surfacing
the validation message. -/
theorem c8_step1_submit_no_network (q : QueryParams) (env : SubmitEnv) (s : UIState)
    (hstep : s.step = 1) :
    (handleSubmit q env s).2 = ⟨[], []⟩ ∧
    (validateStep1 s.formData = none →
      (handleSubmit q env s).1.step = 2 ∧ (handleSubmit q env s).1.error = "") ∧
    (∀ msg, validateStep1 s.formData = some msg →
      (handleSubmit q env s).1.step = 1 ∧ (handleSubmit q env s).1.error = msg) := by
  cases hv : validateStep1 s.formData with
  | none => simp [handleSubmit, hstep, hv]
  | some msg => simp [handleSubmit, hstep, hv]

/-- C8 witness: a step-1 submit with every Step-1 field valid produces
no effects and moves to step 2. -/
theorem c8_step1_submit_no_network_witness :
    (handleSubmit exQuery envOkMerchant exState1).2 = ⟨[], []⟩ ∧
    (handleSubmit exQuery envOkMerchant exState1).1.step = 2 := by
  have h := c8_step1_submit_no_network exQuery envOkMerchant exState1 rfl
  exact ⟨h.1, (h.2.1 (by decide)).1⟩

/-- C9: a change event trims the new value, writes it into the field
named by the input, clears the error message, and leaves the success
message, every other form field, and the rest of the UI state unchanged. -/
theorem c9_handleChange_frame (s : UIState) (f : Field) (v : String) :
    (handleChange s f v).error = "" ∧
    (handleChange s f v).success = s.success ∧
    getField (handleChange s f v).formData f = jsTrim v ∧
    (∀ g, g ≠ f → getField (handleChange s f v).formData g = getField s.formData g) ∧
    (handleChange s f v).step = s.step ∧
    (handleChange s f v).loading = s.loading ∧
    (handleChange s f v).merchantData = s.merchantData ∧
    (handleChange s f v).isDialogOpen = s.isDialogOpen := by
  refine ⟨rfl, rfl, ?_, ?_, rfl, rfl, rfl, rfl⟩
  · cases f <;> rfl
  · intro g hg
    cases f <;> cases g <;> simp_all [handleChange, setField, getField]

/-- C9 witness: changing the merchant name stores the trimmed value,
clears the error, and leaves the UPI field untouched. -/
theorem c9_handleChange_frame_witness :
    (handleChange exState1 Field.merchantName " Cafe Y ").error = "" ∧
    getField (handleChange exState1 Field.merchantName " Cafe Y ").formData Field.upiId =
      getField exState1.formData Field.upiId := by
  have h := c9_handleChange_frame exState1 Field.merchantName " Cafe Y "
  exact ⟨h.1, h.2.2.2.1 Field.upiId (by decide)⟩

/-- C4 counterexample: `generateQRForDisplay` — one of the asynchronous
actions — leaves a stale error and success message in place at its
start; they survive the whole run. -/
theorem c4_qr_display_keeps_messages :
    (generateQRForDisplay (Except.ok "data:url") c4State "link").1.error = "old error" ∧
    (generateQRForDisplay (Except.ok "data:url") c4State "link").1.success = "old success" := by
  decide

/-- C4 (amended): the loading discipline the code actually keeps —
`detectLocation` clears only the location error and never touches the
error/success slots, releasing its loading flag on every outcome;
`generateQRForDisplay` clears no message, never touches the success
slot, and releases its loading flag on both outcomes; `handleSubmit`
clears the error, success, merchant and QR slots at its start (its
result is independent of their prior values) and ends with a clear
loading flag whenever it started with one. -/
theorem c4_loading_discipline :
    (∀ g s, (detectLocation g s).locationLoading = false ∧
      (detectLocation g s).error = s.error ∧
      (detectLocation g s).success = s.success) ∧
    (∀ r s link, ((generateQRForDisplay r s link).1.qrLoading = false ∧
      (generateQRForDisplay r s link).1.success = s.success)) ∧
    (∀ q env s, s.loading = false → (handleSubmit q env s).1.loading = false) ∧
    (∀ q env s, handleSubmit q env s =
      handleSubmit q env
        { s with error := "", success := "", merchantData := none, qrDataUrl := "" }) := by
  refine ⟨?_, ?_, ?_, ?_⟩
  · intro g s
    cases g <;> simp [detectLocation]
  · intro r s link
    cases r <;> simp [generateQRForDisplay]
  · intro q env s h
    by_cases hstep : s.step = 1
    · cases hv : validateStep1 s.formData <;> simp [handleSubmit, hstep, hv, h]
    · cases hv2 : validateStep2 s.formData
      · cases henv : env.apiUrl
        · simp [handleSubmit, hstep, hv2, henv]
        · cases hok : env.responseOk
          · simp [handleSubmit, hstep, hv2, henv, hok]
          · simp [handleSubmit, hstep, hv2, henv, hok]
      · simp [handleSubmit, hstep, hv2, h]
  · intro q env s
    rfl

/-- C4 witness: a submit from a quiescent state ends with the loading
flag clear. -/
theorem c4_loading_discipline_witness :
    (handleSubmit exQuery envOkMerchant exState2).1.loading = false :=
  c4_loading_discipline.2.2.1 exQuery envOkMerchant exState2 rfl

/-- C1 counterexample: an OK creation response whose body carries no
merchant record is not treated as a failure — the success message is
set, no error is surfaced, the form resets to its defaults, and the
completion dialog opens. -/
theorem c1_ok_without_merchant_succeeds :
    envOkNoMerchant.responseOk = true ∧
    envOkNoMerchant.responseMerchant = none ∧
    (handleSubmit exQuery envOkNoMerchant exState2).1.success = "Merchant created successfully!" ∧
    (handleSubmit exQuery envOkNoMerchant exState2).1.error = "" ∧
    (handleSubmit exQuery envOkNoMerchant exState2).1.isDialogOpen = true ∧
    (handleSubmit exQuery envOkNoMerchant exState2).1.formData = initialFormState exQuery := by
  decide

/-- C1 (amended): on an OK creation response with no merchant record the
submission still takes the success path — success message set, no error,
`null` stored as the merchant, form reset to defaults, step reset to 1,
dialog opened, and no QR render attempted. -/
theorem c1_ok_without_merchant_success_path (q : QueryParams) (env : SubmitEnv)
    (s : UIState) (u : String)
    (hstep : s.step = 2) (hv : validateStep2 s.formData = none)
    (hurl : env.apiUrl = some u) (hok : env.responseOk = true)
    (hm : env.responseMerchant = none) :
    (handleSubmit q env s).1.success = "Merchant created successfully!" ∧
    (handleSubmit q env s).1.error = "" ∧
    (handleSubmit q env s).1.merchantData = none ∧
    (handleSubmit q env s).1.formData = initialFormState q ∧
    (handleSubmit q env s).1.step = 1 ∧
    (handleSubmit q env s).1.isDialogOpen = true ∧
    (handleSubmit q env s).2.qrCalls = [] := by
  simp [handleSubmit, hstep, hv, hurl, hok, hm]

/-- C1 witness: the concrete OK-without-merchant environment. -/
theorem c1_ok_without_merchant_success_path_witness :
    (handleSubmit exQuery envOkNoMerchant exState2).1.merchantData = none ∧
    (handleSubmit exQuery envOkNoMerchant exState2).1.step = 1 ∧
    (handleSubmit exQuery envOkNoMerchant exState2).2.qrCalls = [] := by
  have h := c1_ok_without_merchant_success_path exQuery envOkNoMerchant exState2
    "https://api.example" rfl (by decide) rfl rfl rfl
  exact ⟨h.2.2.1, h.2.2.2.2.1, h.2.2.2.2.2.2⟩

/-- C5: on an OK creation response carrying a merchant record, the
record is stored; since it carries a QR link, exactly one QR render is
issued for that link with error-correction level H, margin 1 and width
400, and its data URL is stored; the form resets to its defaults with
campaign and company re-seeded from the query parameters; step resets
to 1; and the completion dialog opens. -/
theorem c5_success_with_merchant (q : QueryParams) (env : SubmitEnv) (s : UIState)
    (u url : String) (m : Merchant)
    (hstep : s.step = 2) (hv : validateStep2 s.formData = none)
    (hurl : env.apiUrl = some u) (hok : env.responseOk = true)
    (hm : env.responseMerchant = some m) (hlink : m.qrLink ≠ "")
    (hqr : env.qrResult = Except.ok url) :
    (handleSubmit q env s).1.merchantData = some m ∧
    (handleSubmit q env s).2.qrCalls = [qrDisplayCall m.qrLink] ∧
    qrDisplayCall m.qrLink =
      { link := m.qrLink, errorCorrectionLevel := "H", margin := 1, width := 400 } ∧
    (handleSubmit q env s).1.qrDataUrl = url ∧
    (handleSubmit q env s).1.formData = initialFormState q ∧
    (handleSubmit q env s).1.step = 1 ∧
    (handleSubmit q env s).1.isDialogOpen = true := by
  simp [handleSubmit, generateQRForDisplay, hstep, hv, hurl, hok, hm, hlink, hqr,
    qrDisplayCall]

/-- C5 witness: the concrete OK-with-merchant environment. -/
theorem c5_success_with_merchant_witness :
    (handleSubmit exQuery envOkMerchant exState2).1.merchantData = some exMerchant ∧
    (handleSubmit exQuery envOkMerchant exState2).2.qrCalls =
      [qrDisplayCall exMerchant.qrLink] ∧
    (handleSubmit exQuery envOkMerchant exState2).1.isDialogOpen = true := by
  have h := c5_success_with_merchant exQuery envOkMerchant exState2
    "https://api.example" "data:image/png;base64,QQ" exMerchant
    rfl (by decide) rfl rfl rfl (by decide) rfl
  exact ⟨h.1, h.2.1, h.2.2.2.2.2.2⟩

/-- C6: a step-2 submit whose data passes both validation stages issues
exactly one POST, carrying the form data, to the creation endpoint under
the configured base URL; on a non-OK response the form stays at step 2,
the error is the server message or the fallback, and loading ends
false. -/
theorem c6_nonok_response (q : QueryParams) (env : SubmitEnv) (s : UIState) (u : String)
    (hstep : s.step = 2) (_hv1 : validateStep1 s.formData = none)
    (hv2 : validateStep2 s.formData = none)
    (hurl : env.apiUrl = some u) (hok : env.responseOk = false) :
    (handleSubmit q env s).2.posts = [⟨u ++ "/api/merchant/create", s.formData⟩] ∧
    (handleSubmit q env s).1.step = 2 ∧
    (handleSubmit q env s).1.error =
      (if env.responseMessage = "" then "Failed to create merchant"
        else env.responseMessage) ∧
    (handleSubmit q env s).1.loading = false := by
  simp [handleSubmit, hstep, hv2, hurl, hok]

/-- C6 witness: the concrete non-OK environment with a server message. -/
theorem c6_nonok_response_witness :
    (handleSubmit exQuery envNotOk exState2).2.posts =
      [⟨"https://api.example" ++ "/api/merchant/create", exState2.formData⟩] ∧
    (handleSubmit exQuery envNotOk exState2).1.step = 2 ∧
    (handleSubmit exQuery envNotOk exState2).1.error =
      (if envNotOk.responseMessage = "" then "Failed to create merchant"
        else envNotOk.responseMessage) ∧
    (handleSubmit exQuery envNotOk exState2).1.loading = false :=
  c6_nonok_response exQuery envNotOk exState2 "https://api.example"
    rfl (by decide) (by decide) rfl rfl

/-- C10: when the QR render throws after an OK response with a QR link,
the success path still completes — form reset, step 1, dialog open —
while the QR error message and the success message are both set, and
loading ends false. -/
theorem c10_qr_failure_still_completes (q : QueryParams) (env : SubmitEnv) (s : UIState)
    (u e : String) (m : Merchant)
    (hstep : s.step = 2) (hv : validateStep2 s.formData = none)
    (hurl : env.apiUrl = some u) (hok : env.responseOk = true)
    (hm : env.responseMerchant = some m) (hlink : m.qrLink ≠ "")
    (hqr : env.qrResult = Except.error e) :
    (handleSubmit q env s).1.formData = initialFormState q ∧
    (handleSubmit q env s).1.step = 1 ∧
    (handleSubmit q env s).1.isDialogOpen = true ∧
    (handleSubmit q env s).1.error = "Failed to generate QR code display" ∧
    (handleSubmit q env s).1.success = "Merchant created successfully!" ∧
    (handleSubmit q env s).1.loading = false := by
  simp [handleSubmit, generateQRForDisplay, hstep, hv, hurl, hok, hm, hlink, hqr]

/-- C10 witness: the concrete failing-QR environment. -/
theorem c10_qr_failure_still_completes_witness :
    (handleSubmit exQuery envQRFail exState2).1.error = "Failed to generate QR code display" ∧
    (handleSubmit exQuery envQRFail exState2).1.success = "Merchant created successfully!" ∧
    (handleSubmit exQuery envQRFail exState2).1.isDialogOpen = true := by
  have h := c10_qr_failure_still_completes exQuery envQRFail exState2
    "https://api.example" "render failed" exMerchant
    rfl (by decide) rfl rfl rfl (by decide) rfl
  exact ⟨h.2.2.2.1, h.2.2.2.2.1, h.2.2.1⟩

end BountyForm
